import Mathlib

/-!
Shallow embedding of the go-promise Future core (src/future.go) and proofs about it.

The Go code mutates a Future only through atomic compare-and-swap on a pointer to an
immutable futureVal snapshot.  In this sequential embedding a CAS always succeeds on
the first attempt, so each CAS retry loop is modelled by a single successful
iteration; the one loop that can repeat even without contention (the settled branch
of Pipe, which contains no break) is modelled with explicit fuel.

Go interface semantics that matter here: a nil function value of a concrete func
type, when passed to a parameter of type interface, is boxed into a NON-nil
interface value (the interface carries the func type descriptor with a nil value),
so a comparison of that interface against nil yields false, while a type assertion
to the same func type succeeds and yields the nil function; calling a nil function
is a runtime panic.  Panics are modelled with Except.error.
-/

namespace GoPromise

/-- Kind of a settled result.  Modelled from the spec: the PromiseResult type and the
RESULT_SUCCESS / RESULT_FAILURE / RESULT_CANCELLED constants are not under src/
(only future.go is); the spec describes the kind as one of Success, Failure,
Cancelled. -/
inductive resultType where
  | success
  | failure
  | cancelled
deriving DecidableEq

/-- Modelled from the spec: the PromiseResult record is not under src/.  It carries
the kind (Typ in future.go) and the payload (Result in future.go); the payload is a
Go interface value that may be nil, hence an Option. -/
structure PromiseResult (V : Type) where
  typ : resultType
  result : Option V
deriving DecidableEq

/-- Value of Go static type func(v interface) as stored in callback lists: either the
nil function value or a concrete function identified by a token.  Invoking the token
is recorded in an invocation log; invoking nil is a runtime panic. -/
inductive GoFuncV where
  | nil
  | mk (id : Nat)
deriving DecidableEq

/-- Value of Go static type func() as stored in the cancels list. -/
inductive GoFunc0 where
  | nil
  | mk (id : Nat)
deriving DecidableEq

/-- A Go interface value passed as the callback argument of addCallback
(future.go:206).  nilIface is the nil interface (only produced by passing a literal
nil interface); fnV / fn0 are boxed function values of the two accepted dynamic
types, POSSIBLY holding the nil function (Go boxes a typed nil func into a non-nil
interface); otherType is a non-nil value of any other dynamic type. -/
inductive CallbackIface where
  | nilIface
  | fnV (f : GoFuncV)
  | fn0 (f : GoFunc0)
  | otherType (id : Nat)
deriving DecidableEq

/-- Go runtime panics that the embedded operations can raise. -/
inductive GoPanic where
  | wrongCallbackType
  | nilFunctionCall
deriving DecidableEq

/-- Record of one callback invocation performed by an operation: the callback token
and, for func(v interface) callbacks, the argument it received. -/
inductive Invocation (V : Type) where
  | withArg (id : Nat) (arg : Option V)
  | noArg (id : Nat)
deriving DecidableEq

/-- Identity of a Future handle as returned by Pipe: the receiver itself (named this
in the Go source), the Future of the Promise with a given identity, or some other
externally produced handle. -/
inductive FutureRef where
  | self
  | promiseFuture (p : Nat)
  | other (k : Nat)
deriving DecidableEq

/-- Type of a Pipe continuation func(v interface) returning a Future: it consumes
the payload and yields the handle of the Future it returns. -/
def PTask (V : Type) : Type := Option V → FutureRef

/-- One pipe record (future.go:32-35): optional done task, optional fail task
(none models a nil function field), and the downstream Promise identity. -/
structure pipeRec (V : Type) where
  pipeDoneTask : Option (PTask V)
  pipeFailTask : Option (PTask V)
  pipePromise : Nat

/-- Snapshot of the internal state of a Future (futureVal, future.go:47-52):
the four callback lists, the pipe list, and the optional settled result r. -/
structure futureVal (V : Type) where
  dones : List GoFuncV
  fails : List GoFuncV
  always : List GoFuncV
  cancels : List GoFunc0
  pipes : List (pipeRec V)
  r : Option (PromiseResult V)

/-- Callback registration kinds (future.go:24-29). -/
inductive callbackType where
  | CALLBACK_DONE
  | CALLBACK_FAIL
  | CALLBACK_ALWAYS
  | CALLBACK_CANCEL
deriving DecidableEq

/-- Invoking a func(v interface) value with the payload (future.go:247-248):
a concrete function logs one invocation, the nil function panics. -/
def invokeV (f : GoFuncV) (arg : Option V) : Except GoPanic (Invocation V) :=
  match f with
  | .nil => .error .nilFunctionCall
  | .mk id => .ok (.withArg id arg)

/-- Invoking a func() value (future.go:250-251). -/
def invoke0 (f : GoFunc0) : Except GoPanic (Invocation V) :=
  match f with
  | .nil => .error .nilFunctionCall
  | .mk id => .ok (.noArg id)

/-- Shallow embedding of Future.addCallback (future.go:206-256).  The nil guard at
line 207 compares the interface argument against nil, so it fires only for the nil
interface, not for a boxed typed-nil function.  The dynamic type checks at lines
210-220 panic before the snapshot is read.  The CAS retry loop is sequential, so the
pending branch appends in one successful CAS; the settled branch invokes a matching
callback synchronously and leaves the snapshot unchanged.  Returns the new snapshot
and the log of invocations performed during the call. -/
def addCallback (cb : CallbackIface) (t : callbackType) (fu : futureVal V) :
    Except GoPanic (futureVal V × List (Invocation V)) :=
  match cb, t with
  | .nilIface, _ => .ok (fu, [])
  | .fnV f, .CALLBACK_DONE =>
      match fu.r with
      | none => .ok ({ fu with dones := fu.dones ++ [f] }, [])
      | some r =>
          if r.typ = .success then (invokeV f r.result).map (fun i => (fu, [i]))
          else .ok (fu, [])
  | .fnV f, .CALLBACK_FAIL =>
      match fu.r with
      | none => .ok ({ fu with fails := fu.fails ++ [f] }, [])
      | some r =>
          if r.typ = .failure then (invokeV f r.result).map (fun i => (fu, [i]))
          else .ok (fu, [])
  | .fnV f, .CALLBACK_ALWAYS =>
      match fu.r with
      | none => .ok ({ fu with always := fu.always ++ [f] }, [])
      | some r =>
          if r.typ ≠ .cancelled then (invokeV f r.result).map (fun i => (fu, [i]))
          else .ok (fu, [])
  | .fnV _, .CALLBACK_CANCEL => .error .wrongCallbackType
  | .fn0 f, .CALLBACK_CANCEL =>
      match fu.r with
      | none => .ok ({ fu with cancels := fu.cancels ++ [f] }, [])
      | some r =>
          if r.typ = .cancelled then (invoke0 f).map (fun i => (fu, [i]))
          else .ok (fu, [])
  | .fn0 _, _ => .error .wrongCallbackType
  | .otherType _, _ => .error .wrongCallbackType

/-- Go boxing of a func(v interface) value into an interface parameter: the result
is never the nil interface, even when the function value itself is nil. -/
def boxV (f : GoFuncV) : CallbackIface := .fnV f

/-- Go boxing of a func() value into an interface parameter. -/
def box0 (f : GoFunc0) : CallbackIface := .fn0 f

/-- Future.OnSuccess (future.go:119-122); the Go method also returns the receiver
for chaining, which carries no state. -/
def OnSuccess (cb : GoFuncV) (fu : futureVal V) :
    Except GoPanic (futureVal V × List (Invocation V)) :=
  addCallback (boxV cb) .CALLBACK_DONE fu

/-- Future.OnFailure (future.go:127-130). -/
def OnFailure (cb : GoFuncV) (fu : futureVal V) :
    Except GoPanic (futureVal V × List (Invocation V)) :=
  addCallback (boxV cb) .CALLBACK_FAIL fu

/-- Future.OnComplete (future.go:137-140). -/
def OnComplete (cb : GoFuncV) (fu : futureVal V) :
    Except GoPanic (futureVal V × List (Invocation V)) :=
  addCallback (boxV cb) .CALLBACK_ALWAYS fu

/-- Future.OnCancel (future.go:144-147). -/
def OnCancel (cb : GoFunc0) (fu : futureVal V) :
    Except GoPanic (futureVal V × List (Invocation V)) :=
  addCallback (box0 cb) .CALLBACK_CANCEL fu

/-- Early-return test of Pipe (future.go:153-155): no callbacks, a single nil
callback, or two nil callbacks.  Pipe receives its callbacks as typed func values,
so here — unlike in addCallback — the nil comparisons work as intended. -/
def pipeNoOp (cbs : List (Option (PTask V))) : Bool :=
  cbs.length == 0 ||
    (cbs.length == 1 && ((cbs.get? 0).join).isNone) ||
    (decide (cbs.length > 1) && ((cbs.get? 0).join).isNone && ((cbs.get? 1).join).isNone)

/-- The pipe record Pipe builds in the pending branch (future.go:172-177): done task
is callbacks[0] (the early-return test guarantees the list is nonempty), fail task
is callbacks[1] when a second callback was supplied and nil otherwise, and a
downstream Promise whose identity newP models the allocation by NewPromise
(NewPromise is not under src/; the spec says a fresh downstream Promise is created). -/
def buildPipe (cbs : List (Option (PTask V))) (newP : Nat) : pipeRec V :=
  { pipeDoneTask := (cbs.get? 0).join
    pipeFailTask := (cbs.get? 1).join
    pipePromise := newP }

/-- The for loop of Pipe (future.go:161-187), with fuel bounding the number of
iterations.  In the settled branch (r non-nil) the body computes result — invoking
the matching continuation — but contains no break, and nothing changes the loaded
snapshot, so the loop runs again; the returned handle of that iteration is
discarded.  In the pending branch the sequential CAS succeeds, the pipe record is
appended and the loop breaks with the downstream Promise's Future.  none models a
call that has not returned within the given fuel. -/
def pipeLoop (fuel : Nat) (cbs : List (Option (PTask V))) (newP : Nat)
    (fu : futureVal V) : Option (FutureRef × futureVal V) :=
  match fuel with
  | 0 => none
  | fuel + 1 =>
      match fu.r with
      | some _ => pipeLoop fuel cbs newP fu
      | none =>
          some (.promiseFuture newP, { fu with pipes := fu.pipes ++ [buildPipe cbs newP] })

/-- Shallow embedding of Future.Pipe (future.go:152-191).  The early return at
lines 156-157 assigns result but returns with the named result ok still at its zero
value false.  Otherwise the loop runs; when it breaks, ok is set to true at line
188.  none models a call that never returns within the given fuel. -/
def Pipe (cbs : List (Option (PTask V))) (newP : Nat) (fuel : Nat)
    (fu : futureVal V) : Option (FutureRef × Bool × futureVal V) :=
  if pipeNoOp cbs then some (.self, false, fu)
  else
    match pipeLoop fuel cbs newP fu with
    | some (res, fu2) => some (res, true, fu2)
    | none => none

/-- Future.RequestCancel (future.go:67-75) on the cancelStatus field: load the
status; when it is 0 the CAS from 0 to 1 succeeds in this sequential model and true
is returned; otherwise false is returned and the status is untouched.  Returns the
result and the new status. -/
def RequestCancel (ccstatus : Int) : Bool × Int :=
  if ccstatus = 0 then (true, 1) else (false, ccstatus)

/-- Future.IsCancelled (future.go:78-81): the status equals 2. -/
def IsCancelled (ccstatus : Int) : Bool :=
  ccstatus == 2

/-- Errors observable through Get, as a Go error value: the distinguished CANCELLED
sentinel or an application error payload. -/
inductive GoError (V : Type) where
  | cancelledErr
  | appErr (e : Option V)
deriving DecidableEq

/-- Modelled from the spec: getFutureReturnVal is called by future.go:94 and 111 but
is not under src/.  The spec defines Get's mapping from the terminal Result:
(value, nil) for Success, (nil, error) for Failure, (nil, CancelledError) for
Cancelled. -/
def getFutureReturnVal (r : PromiseResult V) : Option V × Option (GoError V) :=
  match r.typ with
  | .success => (r.result, none)
  | .failure => (none, some (.appErr r.result))
  | .cancelled => (none, some .cancelledErr)

/-- Future.Get (future.go:92-95): wait on the completion signal, then read the
terminal result.  Modelled from the spec where needed: the chEnd completion signal
fires exactly when the Future settles, so a pending Future blocks forever (none). -/
def Get (fu : futureVal V) : Option (Option V × Option (GoError V)) :=
  fu.r.map getFutureReturnVal

/-- Duration computation of GetOrTimeout (future.go:101-105), in nanoseconds: a
zero argument is replaced by 10 nanoseconds, any other argument mm means mm
milliseconds. -/
def timeoutNanos (mm : Int) : Int :=
  if mm = 0 then 10 else mm * 1000 * 1000

/-- Future.GetOrTimeout (future.go:100-114): races the timer against the completion
signal; timerFirst is the outcome of that race (the select).  The timer branch
returns (nil, nil, true); the completion branch reads the terminal result, so it
can only be taken once the Future is settled (none models the impossible pending
completion).  The Go code performs no writes, so the snapshot after the call — also
returned here — is the snapshot passed in. -/
def GetOrTimeout (timerFirst : Bool) (mm : Int) (fu : futureVal V) :
    Option ((Option V × Option (GoError V) × Bool) × futureVal V) :=
  let _wait := timeoutNanos mm
  if timerFirst then some ((none, none, true), fu)
  else fu.r.map (fun r => (((getFutureReturnVal r).1, (getFutureReturnVal r).2, false), fu))

/-- Modelled from the spec: the terminal snapshot a settle operation installs
carries the new Result and empty callback and pipe lists (spec section 4.2 step 3;
the Promise settle code is not under src/). -/
def terminalVal (res : PromiseResult V) : futureVal V :=
  { dones := [], fails := [], always := [], cancels := [], pipes := [], r := some res }

/-- Whole-Future state: the current snapshot together with the cancelStatus flag. -/
structure FState (V : Type) where
  val : futureVal V
  cancelStatus : Int

/-- State of a freshly created Future: pending empty snapshot, cancelStatus 0. -/
def initState (V : Type) : FState V :=
  { val := { dones := [], fails := [], always := [], cancels := [], pipes := [], r := none }
    cancelStatus := 0 }

/-- One state transition of a Future.  The registration and pipe steps are the
operations of future.go; the settle steps are modelled from the spec (the Promise
side is not under src/): each settles only a pending Future, installs the terminal
snapshot, and the Cancel settle additionally sets the cancelStatus flag to 2 (the
flag's Cancelled state; spec section 3 gives NotRequested, Requested, Cancelled as
0, 1, 2 and IsCancelled reads 2). -/
inductive FStep : FState V → FState V → Prop where
  | requestCancel (s : FState V) :
      FStep s { val := s.val, cancelStatus := (RequestCancel s.cancelStatus).2 }
  | resolve (s : FState V) (v : Option V) : s.val.r = none →
      FStep s { val := terminalVal { typ := .success, result := v }, cancelStatus := s.cancelStatus }
  | reject (s : FState V) (e : Option V) : s.val.r = none →
      FStep s { val := terminalVal { typ := .failure, result := e }, cancelStatus := s.cancelStatus }
  | cancel (s : FState V) : s.val.r = none →
      FStep s { val := terminalVal { typ := .cancelled, result := none }, cancelStatus := 2 }
  | register (s : FState V) (cb : CallbackIface) (t : callbackType)
      (v' : futureVal V) (inv : List (Invocation V)) :
      addCallback cb t s.val = .ok (v', inv) →
      FStep s { val := v', cancelStatus := s.cancelStatus }
  | pipeStep (s : FState V) (cbs : List (Option (PTask V))) (newP fuel : Nat)
      (res : FutureRef) (b : Bool) (v' : futureVal V) :
      Pipe cbs newP fuel s.val = some (res, b, v') →
      FStep s { val := v', cancelStatus := s.cancelStatus }

/-- States a Future can reach from creation via the operations above. -/
def Reachable (s : FState V) : Prop :=
  Relation.ReflTransGen FStep (initState V) s

/-! Concrete snapshots used as inputs of witnesses and counterexamples. -/

/-- Pending Future with no registrations. -/
def emptyPending : futureVal Nat :=
  { dones := [], fails := [], always := [], cancels := [], pipes := [], r := none }

/-- Future already resolved with value 5. -/
def resolvedFive : futureVal Nat :=
  { dones := [], fails := [], always := [], cancels := [], pipes := [],
    r := some { typ := .success, result := some 5 } }

/-! Theorems for the claims. -/

/-- C7: RequestCancel moves the flag from 0 (NotRequested) to 1 (Requested) and
returns true exactly when this call performed the transition; on any nonzero flag
it returns false and leaves the flag unchanged, so two successive calls return
true then false. -/
theorem requestCancel_transition :
    RequestCancel 0 = (true, 1) ∧
    (∀ s : Int, s ≠ 0 → RequestCancel s = (false, s)) ∧
    RequestCancel (RequestCancel 0).2 = (false, 1) := by
  refine ⟨rfl, ?_, rfl⟩
  intro s hs
  simp [RequestCancel, hs]

/-- Witness for requestCancel_transition at the concrete flag value 5. -/
theorem requestCancel_transition_witness :
    RequestCancel 5 = (false, 5) :=
  requestCancel_transition.2.1 5 (by decide)

/-- C10: a non-nil callback whose dynamic type does not match the registration kind
makes addCallback panic with the type-spec error, uniformly in the snapshot (the
check precedes any snapshot read, so the result does not depend on fu and no new
snapshot is produced), never a silent no-op. -/
theorem addCallback_wrongType_panics (fu : futureVal V) :
    (∀ (f : GoFunc0) (t : callbackType), t ≠ .CALLBACK_CANCEL →
        addCallback (.fn0 f) t fu = .error .wrongCallbackType) ∧
    (∀ f : GoFuncV,
        addCallback (.fnV f) .CALLBACK_CANCEL fu = .error .wrongCallbackType) ∧
    (∀ (k : Nat) (t : callbackType),
        addCallback (.otherType k) t fu = .error .wrongCallbackType) := by
  refine ⟨?_, fun _ => rfl, fun _ t => ?_⟩
  · intro f t ht
    cases t with
    | CALLBACK_DONE => rfl
    | CALLBACK_FAIL => rfl
    | CALLBACK_ALWAYS => rfl
    | CALLBACK_CANCEL => exact absurd rfl ht
  · cases t <;> rfl

/-- Witness for addCallback_wrongType_panics: a func() value registered as a done
callback on the empty pending snapshot panics. -/
theorem addCallback_wrongType_panics_witness :
    addCallback (.fn0 (.mk 0)) .CALLBACK_DONE emptyPending =
      .error .wrongCallbackType :=
  (addCallback_wrongType_panics emptyPending).1 (.mk 0) .CALLBACK_DONE (by decide)

/-- C2 is a code bug: OnSuccess passes its typed callback through an interface
parameter, so a nil func(v interface) argument boxes to a non-nil interface and the
callback == nil guard of addCallback (future.go:207) does not fire.  On a pending
Future the nil function is appended to dones (the snapshot IS modified); on a
Future already resolved, addCallback invokes the nil function and panics.  The
guard itself works only for a nil interface passed directly to addCallback. -/
theorem onSuccess_typedNil_not_noop :
    OnSuccess GoFuncV.nil emptyPending =
      .ok ({ emptyPending with dones := [GoFuncV.nil] }, []) ∧
    OnSuccess GoFuncV.nil resolvedFive = .error .nilFunctionCall ∧
    addCallback .nilIface .CALLBACK_DONE resolvedFive = .ok (resolvedFive, []) :=
  ⟨rfl, rfl, rfl⟩

/-- C3: registering a non-nil callback on a Future already settled in the matching
outcome invokes it exactly once, within the registration call, with the settled
Result's payload (no argument for OnCancel), and returns the snapshot unchanged. -/
theorem settled_registration_invokes_inline (fu : futureVal V)
    (r : PromiseResult V) (id : Nat) (hr : fu.r = some r) :
    (r.typ = .success →
        OnSuccess (.mk id) fu = .ok (fu, [.withArg id r.result])) ∧
    (r.typ = .failure →
        OnFailure (.mk id) fu = .ok (fu, [.withArg id r.result])) ∧
    (r.typ ≠ .cancelled →
        OnComplete (.mk id) fu = .ok (fu, [.withArg id r.result])) ∧
    (r.typ = .cancelled →
        OnCancel (.mk id) fu = .ok (fu, [.noArg id])) := by
  refine ⟨?_, ?_, ?_, ?_⟩ <;> intro h <;>
    simp [OnSuccess, OnFailure, OnComplete, OnCancel, boxV, box0, addCallback,
      hr, h, invokeV, invoke0, Except.map]

/-- Witness for settled_registration_invokes_inline on a Future resolved with 5. -/
theorem settled_registration_invokes_inline_witness :
    OnSuccess (.mk 7) resolvedFive = .ok (resolvedFive, [.withArg 7 (some 5)]) :=
  (settled_registration_invokes_inline resolvedFive
    { typ := .success, result := some 5 } 7 rfl).1 rfl

/-- C4: registering a non-nil callback on a pending Future appends it at the end of
exactly the list matching its kind, leaves the other lists, the pipes and the
absent result unchanged (the record update touches one field only), and performs no
invocation. -/
theorem pending_registration_appends (fu : futureVal V) (id : Nat)
    (hp : fu.r = none) :
    OnSuccess (.mk id) fu = .ok ({ fu with dones := fu.dones ++ [.mk id] }, []) ∧
    OnFailure (.mk id) fu = .ok ({ fu with fails := fu.fails ++ [.mk id] }, []) ∧
    OnComplete (.mk id) fu = .ok ({ fu with always := fu.always ++ [.mk id] }, []) ∧
    OnCancel (.mk id) fu = .ok ({ fu with cancels := fu.cancels ++ [.mk id] }, []) := by
  refine ⟨?_, ?_, ?_, ?_⟩ <;>
    simp [OnSuccess, OnFailure, OnComplete, OnCancel, boxV, box0, addCallback, hp]

/-- Witness for pending_registration_appends on the empty pending snapshot. -/
theorem pending_registration_appends_witness :
    OnSuccess (.mk 7) emptyPending =
      .ok ({ emptyPending with dones := [GoFuncV.mk 7] }, []) := by
  exact (pending_registration_appends emptyPending 7 rfl).1

/-- C1 counterexample: Pipe with no callbacks on a pending Future returns the
receiver unchanged but with ok = false — the early return at future.go:156-157
leaves the named result ok at its zero value — so the claimed ok = true is false. -/
theorem pipe_noArgs_ok_false :
    Pipe ([] : List (Option (PTask Nat))) 0 1 emptyPending =
      some (.self, false, emptyPending) ∧
    ¬ Pipe ([] : List (Option (PTask Nat))) 0 1 emptyPending =
      some (.self, true, emptyPending) := by
  constructor
  · rfl
  · intro h
    rw [show Pipe ([] : List (Option (PTask Nat))) 0 1 emptyPending =
        some (.self, false, emptyPending) from rfl] at h
    simp at h

/-- C1 amended: Pipe with no callbacks, a single nil callback, or two nil callbacks
returns the receiver Future unchanged with ok = false (the early return never sets
ok), and does not modify the snapshot. -/
theorem pipe_noArgs_passthrough (fu : futureVal V) (newP fuel : Nat) :
    Pipe ([] : List (Option (PTask V))) newP fuel fu = some (.self, false, fu) ∧
    Pipe [(none : Option (PTask V))] newP fuel fu = some (.self, false, fu) ∧
    Pipe [(none : Option (PTask V)), none] newP fuel fu =
      some (.self, false, fu) :=
  ⟨rfl, rfl, rfl⟩

/-- Witness for pipe_noArgs_passthrough at a concrete pending snapshot. -/
theorem pipe_noArgs_passthrough_witness :
    Pipe [(none : Option (PTask Nat))] 0 3 emptyPending =
      some (.self, false, emptyPending) :=
  (pipe_noArgs_passthrough emptyPending 0 3).2.1

/-- C5 is a code bug: on a Future that is already settled, the settled branch of
Pipe's for loop (future.go:164-170) assigns result — invoking the matching
continuation — but contains no break, and the loaded snapshot never changes, so
Pipe never returns, for any number of loop iterations. -/
theorem pipe_settled_never_returns (fu : futureVal V) (r : PromiseResult V)
    (cbs : List (Option (PTask V))) (newP fuel : Nat)
    (hr : fu.r = some r) (hcb : pipeNoOp cbs = false) :
    Pipe cbs newP fuel fu = none := by
  have hloop : ∀ n, pipeLoop n cbs newP fu = none := by
    intro n
    induction n with
    | zero => rfl
    | succ n ih => simp [pipeLoop, hr, ih]
  simp [Pipe, hcb, hloop fuel]

/-- Witness for pipe_settled_never_returns: Pipe with one non-nil continuation on a
Future resolved with 5 does not return within 1000 iterations. -/
theorem pipe_settled_never_returns_witness :
    Pipe [some (fun _ => FutureRef.other 3)] 0 1000 resolvedFive = none :=
  pipe_settled_never_returns resolvedFive { typ := .success, result := some 5 }
    [some (fun _ => FutureRef.other 3)] 0 1000 rfl rfl

/-- C6: on a pending Future, Pipe past the nil early-return appends one pipe record
holding callbacks[0] as done task, callbacks[1] as fail task when supplied (nil
otherwise), and the freshly created downstream Promise newP; the callback lists and
the absent result are unchanged, and the downstream Promise's Future is returned
with ok = true. -/
theorem pipe_pending_appends (fu : futureVal V)
    (cbs : List (Option (PTask V))) (newP fuel : Nat)
    (hp : fu.r = none) (hcb : pipeNoOp cbs = false) :
    Pipe cbs newP (fuel + 1) fu =
      some (.promiseFuture newP, true,
        { fu with pipes := fu.pipes ++
            [{ pipeDoneTask := (cbs.get? 0).join
               pipeFailTask := (cbs.get? 1).join
               pipePromise := newP }] }) := by
  simp [Pipe, hcb, pipeLoop, hp, buildPipe]

/-- Witness for pipe_pending_appends: one non-nil continuation on the empty pending
snapshot. -/
theorem pipe_pending_appends_witness :
    Pipe [some (fun _ => FutureRef.other 3)] 5 1 emptyPending =
      some (.promiseFuture 5, true,
        { emptyPending with pipes :=
            [{ pipeDoneTask := some (fun _ => FutureRef.other 3)
               pipeFailTask := none
               pipePromise := 5 }] }) := by
  exact pipe_pending_appends emptyPending [some (fun _ => FutureRef.other 3)] 5 0
    rfl rfl

/-! Preservation lemmas feeding the reachability invariant of C8. -/

/-- Successful addCallback never changes the r field of the snapshot. -/
theorem addCallback_ok_r {cb : CallbackIface} {t : callbackType}
    {fu v' : futureVal V} {inv : List (Invocation V)}
    (h : addCallback cb t fu = .ok (v', inv)) : v'.r = fu.r := by
  cases hfu : fu.r with
  | none =>
      cases cb with
      | nilIface =>
          simp [addCallback] at h
          rw [← h.1]
          exact hfu
      | fnV f =>
          cases t <;> simp [addCallback, hfu] at h <;> rw [← h.1]
      | fn0 f =>
          cases t <;> simp [addCallback, hfu] at h
          rw [← h.1]
      | otherType k =>
          cases t <;> simp [addCallback] at h
  | some r =>
      cases cb with
      | nilIface =>
          simp [addCallback] at h
          rw [← h.1]
          exact hfu
      | fnV f =>
          cases f <;> cases t <;>
            simp [addCallback, hfu, invokeV, Except.map] at h <;>
            (try split at h) <;> (try simp at h) <;> (rw [← h.1]; exact hfu)
      | fn0 f =>
          cases f <;> cases t <;>
            simp [addCallback, hfu, invoke0, Except.map] at h <;>
            (try split at h) <;> (try simp at h) <;> (rw [← h.1]; exact hfu)
      | otherType k =>
          cases t <;> simp [addCallback] at h

/-- When pipeLoop returns, the Future was pending and the new snapshot is still
pending. -/
theorem pipeLoop_some_r {fuel newP : Nat} {cbs : List (Option (PTask V))}
    {fu v' : futureVal V} {res : FutureRef}
    (h : pipeLoop fuel cbs newP fu = some (res, v')) :
    fu.r = none ∧ v'.r = none := by
  induction fuel with
  | zero => simp [pipeLoop] at h
  | succ n ih =>
      cases hfu : fu.r with
      | some r =>
          rw [pipeLoop, hfu] at h
          exact absurd (ih h).1 (by simp [hfu])
      | none =>
          rw [pipeLoop, hfu] at h
          refine ⟨rfl, ?_⟩
          cases h
          rfl

/-- Pipe never changes the r field of the snapshot it returns. -/
theorem pipe_some_r {newP fuel : Nat} {cbs : List (Option (PTask V))}
    {fu v' : futureVal V} {res : FutureRef} {b : Bool}
    (h : Pipe cbs newP fuel fu = some (res, b, v')) : v'.r = fu.r := by
  unfold Pipe at h
  split at h
  · cases h
    rfl
  · cases hl : pipeLoop fuel cbs newP fu with
    | none => rw [hl] at h; cases h
    | some p =>
        rw [hl] at h
        cases h
        have hp : pipeLoop fuel cbs newP fu = some (p.1, p.2) := by rw [hl]
        have := pipeLoop_some_r hp
        rw [this.2, this.1]

/-- RequestCancel never produces the flag value 2: the new status is 2 exactly when
the old one already was. -/
theorem requestCancel_status_two (s : Int) :
    (RequestCancel s).2 = 2 ↔ s = 2 := by
  unfold RequestCancel
  split <;> simp_all

/-- C8: over every state a Future can reach from creation via its operations and
the spec-modelled settle operations, IsCancelled holds exactly when the Future is
settled with a Cancelled result; in particular it is false on every pending state,
however many RequestCancel calls happened. -/
theorem isCancelled_iff_settled_cancelled (s : FState V) (hs : Reachable s) :
    (IsCancelled s.cancelStatus = true ↔
      ∃ res : PromiseResult V, s.val.r = some res ∧ res.typ = .cancelled) ∧
    (s.val.r = none → IsCancelled s.cancelStatus = false) := by
  have main : ∀ c : Int, IsCancelled c = true ↔ c = 2 := by
    intro c
    simp [IsCancelled]
  have inv : s.cancelStatus = 2 ↔
      ∃ res : PromiseResult V, s.val.r = some res ∧ res.typ = .cancelled := by
    unfold Reachable at hs
    induction hs with
    | refl => simp [initState]
    | tail hab hbc ih =>
        cases hbc with
        | requestCancel =>
            simpa [requestCancel_status_two] using ih
        | resolve v hb =>
            simp only [terminalVal]
            constructor
            · intro h2
              exact absurd (ih.mp h2) (by simp [hb])
            · rintro ⟨res, hres, hty⟩
              cases hres
              cases hty
        | reject e hb =>
            simp only [terminalVal]
            constructor
            · intro h2
              exact absurd (ih.mp h2) (by simp [hb])
            · rintro ⟨res, hres, hty⟩
              cases hres
              cases hty
        | cancel hb =>
            simp [terminalVal]
        | register cb t v' inv hreg =>
            simpa [addCallback_ok_r hreg] using ih
        | pipeStep cbs newP fuel res b' v' hpipe =>
            simpa [pipe_some_r hpipe] using ih
  refine ⟨(main s.cancelStatus).trans inv, ?_⟩
  intro hnone
  have : ¬ s.cancelStatus = 2 := by
    rw [inv]
    rintro ⟨res, hres, -⟩
    rw [hnone] at hres
    cases hres
  simp [IsCancelled, this]

/-- Witness for isCancelled_iff_settled_cancelled: the state after two
RequestCancel calls on a fresh Future is reachable, still pending, and IsCancelled
is false on it. -/
theorem isCancelled_iff_settled_cancelled_witness :
    IsCancelled
      ({ val := (initState Nat).val,
         cancelStatus :=
           (RequestCancel
             ({ val := (initState Nat).val,
                cancelStatus :=
                  (RequestCancel (initState Nat).cancelStatus).2 } : FState Nat).cancelStatus).2 } :
        FState Nat).cancelStatus = false := by
  exact (isCancelled_iff_settled_cancelled _
    (Relation.ReflTransGen.tail (Relation.ReflTransGen.tail Relation.ReflTransGen.refl
      (FStep.requestCancel _)) (FStep.requestCancel _))).2 rfl

/-- C9: when the timer wins the race, GetOrTimeout returns (nil, nil, true) and the
snapshot is returned untouched, so a later Get on the same Future still observes
the real terminal result; and the zero-duration argument is replaced by a minimal
nonzero 10-nanosecond wait, strictly below the wait any positive argument yields. -/
theorem getOrTimeout_timeout_preserves (fu : futureVal V) (mm : Int) :
    GetOrTimeout true mm fu = some ((none, none, true), fu) ∧
    (∀ r : PromiseResult V, fu.r = some r → Get fu = some (getFutureReturnVal r)) ∧
    timeoutNanos 0 = 10 ∧ 0 < timeoutNanos 0 ∧
    (∀ mm' : Int, 0 < mm' → timeoutNanos 0 < timeoutNanos mm') := by
  refine ⟨rfl, ?_, rfl, by decide, ?_⟩
  · intro r hr
    simp [Get, hr]
  · intro mm' hmm
    have hne : mm' ≠ 0 := by omega
    simp [timeoutNanos, hne]
    omega

/-- Witness for getOrTimeout_timeout_preserves on a Future resolved with 5 and a
3-millisecond timeout. -/
theorem getOrTimeout_timeout_preserves_witness :
    GetOrTimeout true 3 resolvedFive = some ((none, none, true), resolvedFive) ∧
    Get resolvedFive = some (some 5, none) ∧
    timeoutNanos 0 < timeoutNanos 1 := by
  refine ⟨(getOrTimeout_timeout_preserves resolvedFive 3).1, ?_, ?_⟩
  · exact (getOrTimeout_timeout_preserves resolvedFive 3).2.1
      { typ := .success, result := some 5 } rfl
  · exact (getOrTimeout_timeout_preserves resolvedFive 3).2.2.2.2 1 (by decide)

end GoPromise
